import Mathlib

/-!
Shallow embedding of `src/monitor_oci_billing/main.py` (OCI billing monitor).

Conventions of the embedding:
* Python floats are modelled as `ℚ`.  Every numeric value appearing in the
  claims (105.25, 100.0, 50.5, 30, -5.0) is exactly representable as an IEEE
  double, and on such values `+`, `>` and 2-decimal formatting agree between
  doubles and rationals, so the rational model is faithful on the inputs the
  claims quantify over.
* Log output is modelled as a list of `LogEvent`s; network requests as a list
  of `HttpRequest`s.  A Python function that "never raises to its caller" is
  modelled as a total Lean function producing such traces.
* Interactions with the outside world (the OCI SDK signer resolution, the
  usage API call, the webhook HTTP POST) are modelled by passing the outcome
  of the external call as an explicit argument; everything the Python code
  does *around* those calls (validation order, exception routing, summation,
  branching) is translated line by line from the source.
-/

/-- Severity of a log line, mirroring the `logging` levels used in `main.py`
(`logger.info` / `logger.warning` / `logger.error`). -/
inductive LogLevel where
  | info
  | warning
  | error
deriving DecidableEq, Repr

/-- One emitted log line. -/
structure LogEvent where
  level : LogLevel
  msg : String
deriving DecidableEq, Repr

/-- `s` contains `sub` as a contiguous substring. -/
def ContainsStr (s sub : String) : Prop :=
  ∃ pre post : String, s = pre ++ sub ++ post

/-- An INI file as read by `configparser.ConfigParser`: a list of sections,
each a list of `option = value` pairs (option names already normalised to
lower case, as configparser does). -/
structure RawConfig where
  sections : List (String × List (String × String))
deriving DecidableEq, Repr

/-- `config.has_section(s)`. -/
def RawConfig.has_section (c : RawConfig) (s : String) : Bool :=
  c.sections.any (fun sec => sec.1 = s)

/-- Look an option up, `none` when the section or option is absent. -/
def RawConfig.getOpt (c : RawConfig) (s o : String) : Option String :=
  match c.sections.find? (fun sec => sec.1 = s) with
  | none => none
  | some sec =>
    match sec.2.find? (fun kv => kv.1 = o) with
    | none => none
    | some kv => some kv.2

/-- `config.has_option(s, o)`. -/
def RawConfig.has_option (c : RawConfig) (s o : String) : Bool :=
  (c.getOpt s o).isSome

/-- Numeric value of a (non-empty, all-digit) character list. -/
def digitsVal (cs : List Char) : Nat :=
  cs.foldl (fun a c => 10 * a + (c.toNat - 48)) 0

/-- All characters are ASCII digits and there is at least one. -/
def allDigits (cs : List Char) : Bool :=
  !cs.isEmpty && cs.all Char.isDigit

/-- Mantissa part of Python `float(...)`: `digits`, `digits.digits`,
`digits.` or `.digits` (at least one digit in total). -/
def parseMantissa (cs : List Char) : Option ℚ :=
  match cs.splitOn '.' with
  | [intPart] =>
    if allDigits intPart then some (digitsVal intPart : ℚ) else none
  | [intPart, fracPart] =>
    if (intPart.all Char.isDigit && fracPart.all Char.isDigit)
        && !(intPart.isEmpty && fracPart.isEmpty) then
      some ((digitsVal intPart : ℚ)
        + (digitsVal fracPart : ℚ) / ((10 : ℚ) ^ fracPart.length))
    else none
  | _ => none

/-- Optional leading sign; returns the sign as a factor and the rest. -/
def splitSign : List Char → ℚ × List Char
  | '-' :: rest => (-1, rest)
  | '+' :: rest => (1, rest)
  | cs => (1, cs)

/-- Python's `float(s)` (as invoked by `config.getfloat`), restricted to the
decimal syntax `[sign] digits [. digits] [e [sign] digits]`.  The special
forms `inf`/`nan` and digit-group underscores are not modelled; no
configuration value considered by the claims uses them. -/
def parseFloat (s : String) : Option ℚ :=
  let cs := s.trim.toList
  let (sign, cs) := splitSign cs
  -- Python accepts both `e` and `E` for the exponent marker.
  match (cs.map Char.toLower).splitOn 'e' with
  | [m] => (parseMantissa m).map (fun q => sign * q)
  | [m, e] =>
    let (esign, eds) := splitSign e
    if allDigits eds then
      (parseMantissa m).map (fun q =>
        if esign = 1 then sign * q * (10 : ℚ) ^ digitsVal eds
        else sign * q / (10 : ℚ) ^ digitsVal eds)
    else none
  | _ => none

/-- Numeric value of a two-digit pair. -/
def twoDigitVal (a b : Char) : Nat :=
  10 * (a.toNat - 48) + (b.toNat - 48)

/-- Gregorian leap year, as used by `datetime`. -/
def isLeapYear (y : Nat) : Bool :=
  (y % 4 = 0 && y % 100 ≠ 0) || y % 400 = 0

/-- Days in a month, as validated by `datetime.strptime`. -/
def daysInMonth (y m : Nat) : Nat :=
  if m = 2 then (if isLeapYear y then 29 else 28)
  else if m = 4 || m = 6 || m = 9 || m = 11 then 30
  else 31

/-- `datetime.strptime(s, '%Y-%m-%dT%H:%M:%SZ')` succeeds: exactly the shape
`YYYY-MM-DDTHH:MM:SSZ` with a valid calendar date and time of day
(`datetime` requires `1 ≤ year`, `1 ≤ month ≤ 12`, a day valid for the
month, `hour ≤ 23`, `minute ≤ 59`, `second ≤ 59`). -/
def parse_datetime_z (s : String) : Bool :=
  match s.toList with
  | [y1, y2, y3, y4, '-', m1, m2, '-', d1, d2, 'T',
     h1, h2, ':', n1, n2, ':', s1, s2, 'Z'] =>
    if ([y1, y2, y3, y4, m1, m2, d1, d2, h1, h2, n1, n2, s1, s2].all
          Char.isDigit) then
      let y := digitsVal [y1, y2, y3, y4]
      let mo := twoDigitVal m1 m2
      let d := twoDigitVal d1 d2
      let h := twoDigitVal h1 h2
      let mi := twoDigitVal n1 n2
      let se := twoDigitVal s1 s2
      1 ≤ y && 1 ≤ mo && mo ≤ 12 && 1 ≤ d && d ≤ daysInMonth y mo
        && h ≤ 23 && mi ≤ 59 && se ≤ 59
    else false
  | _ => false

/-- Errors raised (and re-raised) by `load_config`: `FileNotFoundError`,
`configparser.MissingSectionHeaderError`, `configparser.NoOptionError`, and
the `configparser.Error` that wraps a `ValueError` from `getfloat`/
`strptime`. -/
inductive LoadError where
  | fileNotFound
  | missingSection (name : String)
  | noOption (opt sec : String)
  | valueError
deriving DecidableEq, Repr

/-- Validation body of `load_config` (main.py lines 45-98), translated check
by check in source order.  The advisory warning about the
`feishu_webhook_url` prefix (lines 88-90) is a log side effect only and is
not part of the success/failure result modelled here. -/
def validate_config (c : RawConfig) : Except LoadError Unit :=
  if ¬ c.has_section "OCI" then .error (.missingSection "OCI")
  else if ¬ c.has_section "Billing" then .error (.missingSection "Billing")
  else if ¬ c.has_section "Alerting" then .error (.missingSection "Alerting")
  else if ¬ c.has_option "OCI" "tenancy_ocid" then
    .error (.noOption "tenancy_ocid" "OCI")
  else if ¬ c.has_option "Billing" "start_time" then
    .error (.noOption "start_time" "Billing")
  else if ¬ c.has_option "Billing" "cost_threshold" then
    .error (.noOption "cost_threshold" "Billing")
  else if ¬ c.has_option "Billing" "currency" then
    .error (.noOption "currency" "Billing")
  else if (parseFloat ((c.getOpt "Billing" "cost_threshold").getD "")).isNone
      then .error .valueError
  else if ¬ parse_datetime_z ((c.getOpt "Billing" "start_time").getD "") then
    .error .valueError
  else if ¬ c.has_option "Alerting" "method" then
    .error (.noOption "method" "Alerting")
  else if ((c.getOpt "Alerting" "method").getD "").toLower = "feishu"
      ∧ ¬ c.has_option "Alerting" "feishu_webhook_url" then
    .error (.noOption "feishu_webhook_url" "Alerting")
  else .ok ()

/-- `load_config(config_path)` (main.py lines 28-101): `none` models a path
for which `os.path.exists` is false (`FileNotFoundError`), `some raw` a
readable file with parsed content `raw`. -/
def load_config (file : Option RawConfig) : Except LoadError Unit :=
  match file with
  | none => .error .fileNotFound
  | some raw => validate_config raw

/-- Floor of a rational as an integer (`den` is always positive, so floor
division of `num` by `den` is the mathematical floor). -/
def ratFloor (q : ℚ) : ℤ :=
  q.num.fdiv q.den

/-- Round a rational to the nearest integer, ties to even — the rounding
applied by CPython's `format(x, '.2f')` at the last kept digit.  (CPython
rounds the binary double; on values exact at two decimals, as all values in
the claims are, no tie-breaking or double-rounding effect can occur and the
rational model agrees.) -/
def roundHalfEven (q : ℚ) : ℤ :=
  let f := ratFloor q
  let r := q - (f : ℚ)
  if r < 1 / 2 then f
  else if 1 / 2 < r then f + 1
  else if f % 2 = 0 then f else f + 1

/-- Zero-padded two-digit rendering of `n < 100`. -/
def pad2 (n : Nat) : String :=
  if n < 10 then "0" ++ toString n else toString n

/-- Python's `f"{x:.2f}"` on the rational model: fixed two decimal places,
minus sign for negative values. -/
def formatFixed2 (q : ℚ) : String :=
  let n := roundHalfEven (q * 100)
  let sign := if q < 0 then "-" else ""
  sign ++ toString (n.natAbs / 100) ++ "." ++ pad2 (n.natAbs % 100)

/-- One usage line item of the summarized-usages response.
`computed_amount = none` models an item whose `computed_amount` attribute is
missing or `None`; `currency_iso = none` one whose `currency`/`iso_code`
attribute chain is missing (the Python guards with `hasattr`). -/
structure UsageItem where
  computed_amount : Option ℚ
  currency_iso : Option String
deriving DecidableEq, Repr

/-- Outcome of the signer-resolution step performed by
`get_oci_signer_and_config` once its own option checks have passed: either a
signer is obtained, or the OCI SDK raises `ConfigFileNotFound`,
`ProfileNotFound`, or some other exception (which also covers an instance-
principal failure in Cloud Shell mode). -/
inductive SignerOutcome where
  | ok
  | configFileNotFound
  | profileNotFound
  | otherError
deriving DecidableEq, Repr

/-- Outcome of `usage_api_client.request_summarized_usages`.  `success its`
is a response whose `data.items` is `its`; an empty list also models a
response with falsy `data` or `items` (the Python treats all of these
identically via `if summarized_usages.data and summarized_usages.data.items`).
`serviceError s` is an `oci.exceptions.ServiceError` with HTTP status `s`;
`otherError` any other exception. -/
inductive ApiOutcome where
  | success (items : List UsageItem)
  | serviceError (status : Nat)
  | otherError
deriving DecidableEq, Repr

/-- Result of `get_oci_usage`: the returned value (`None` on failure) plus
the log lines emitted. -/
structure UsageOutcome where
  result : Option ℚ
  logs : List LogEvent
deriving DecidableEq, Repr

/-- The skipped-item warning of main.py line 228.  (The Python warning
interpolates `repr(item.computed_amount)`; the float repr is not modelled
and is abbreviated `<amount>` — no claim depends on it.) -/
def mismatch_warning (target : String) (item : UsageItem) : LogEvent :=
  ⟨.warning,
    "用量项的货币 (" ++ (item.currency_iso.getD "N/A")
      ++ ") 与目标货币 (" ++ target ++ ") 不匹配，已跳过。金额: "
      ++ "<amount>"⟩

/-- One iteration of the summation loop (the body of the `for` at main.py
line 222). -/
def usage_fold_step (target : String) (acc : ℚ × List LogEvent)
    (item : UsageItem) : ℚ × List LogEvent :=
  match item.computed_amount with
  | some amt =>
    if item.currency_iso = some target then (acc.1 + amt, acc.2)
    else (acc.1, acc.2 ++ [mismatch_warning target item])
  | none => acc

/-- The summation loop of `get_oci_usage` (main.py lines 220-228): running
total and warning lines, in item order.  An item contributes to the sum iff
its `computed_amount` is present and its currency ISO code equals the target
currency; an item with an amount but a non-matching (or missing) currency is
logged and skipped; an item without an amount is skipped silently. -/
def usage_items_fold (items : List UsageItem) (target : String) :
    ℚ × List LogEvent :=
  items.foldl (usage_fold_step target) (0, [])

/-- `get_oci_usage(config, start_time_str, is_cloud_shell)` (main.py lines
174-248).  The two external calls are abstracted by `so` (signer resolution)
and `ao` (usage API call); everything else — the order of configuration
reads, which exceptions each step raises, how each `except` clause routes
them to `None`, the summation, the `0.0` no-data case, and the 401/404
permissions hint — is translated from the source. -/
def get_oci_usage (raw : RawConfig) (start_time_str : String)
    (is_cloud_shell : Bool) (so : SignerOutcome) (ao : ApiOutcome) :
    UsageOutcome :=
  -- get_oci_signer_and_config first reads `tenancy_ocid` (line 122); a
  -- missing option raises NoOptionError, caught at line 236 → None.
  match raw.getOpt "OCI" "tenancy_ocid" with
  | none => ⟨none, [⟨.error, "OCI 配置错误"⟩]⟩
  | some auth_tenancy =>
    -- Non-Cloud-Shell mode requires config_file / profile_name
    -- (lines 136-139); NoOptionError → caught at line 236 → None.
    if ¬ is_cloud_shell ∧ ¬ raw.has_option "OCI" "config_file" then
      ⟨none, [⟨.error, "OCI 配置错误"⟩]⟩
    else if ¬ is_cloud_shell ∧ ¬ raw.has_option "OCI" "profile_name" then
      ⟨none, [⟨.error, "OCI 配置错误"⟩]⟩
    else
      match so with
      | .configFileNotFound => ⟨none, [⟨.error, "OCI 配置错误"⟩]⟩
      | .profileNotFound => ⟨none, [⟨.error, "OCI 配置错误"⟩]⟩
      | .otherError => ⟨none, [⟨.error, "获取 OCI 用量时发生未知错误"⟩]⟩
      | .ok =>
        let target_tenancy :=
          (raw.getOpt "OCI" "target_tenancy_ocid").getD auth_tenancy
        -- line 194: a missing `currency` raises NoOptionError → None.
        match raw.getOpt "Billing" "currency" with
        | none => ⟨none, [⟨.error, "OCI 配置错误"⟩]⟩
        | some target_currency =>
          -- line 204: strptime; ValueError → generic except → None.
          if ¬ parse_datetime_z start_time_str then
            ⟨none, [⟨.error, "获取 OCI 用量时发生未知错误"⟩]⟩
          else
            match ao with
            | .serviceError status =>
              let hint :=
                if status = 401 ∨ status = 404 then
                  [⟨.error,
                    "请确认认证主体 ("
                      ++ (if is_cloud_shell then "实例主体"
                          else "配置文件用户 (profile: "
                            ++ ((raw.getOpt "OCI" "profile_name").getD "N/A")
                            ++ ")")
                      ++ "，父租户: " ++ auth_tenancy
                      ++ ") 具有读取子租户 (" ++ target_tenancy
                      ++ ") 用量数据的权限。"⟩]
                else []
              ⟨none, ⟨.error, "OCI API 请求失败 (查询租户 "
                ++ target_tenancy ++ ")"⟩ :: hint⟩
            | .otherError =>
              ⟨none, [⟨.error, "获取 OCI 用量时发生未知错误"⟩]⟩
            | .success items =>
              if items.isEmpty then
                ⟨some 0, [⟨.info, "在指定时间范围内未找到租户 "
                  ++ target_tenancy ++ " 的用量数据。"⟩]⟩
              else
                let folded := usage_items_fold items target_currency
                ⟨some folded.1,
                  folded.2 ++ [⟨.info, "获取到租户 " ++ target_tenancy
                    ++ " 的 " ++ toString items.length ++ " 条用量记录。"⟩]⟩

/-- One outbound HTTP POST as performed by `send_feishu_alert` (main.py line
268): the webhook URL, the two payload fields of
`{"msg_type": "text", "content": {"text": ...}}`, and the timeout in
seconds. -/
structure HttpRequest where
  url : String
  msg_type : String
  text : String
  timeout : Nat
deriving DecidableEq, Repr

/-- The parsed JSON response body as consulted by `send_feishu_alert`:
`result.get("StatusCode")` and `result.get("code")` (`none` when the key is
absent; non-integer JSON values, which compare unequal to `0` just as a
missing key does, are not distinguished). -/
structure FeishuResp where
  statusCode : Option Int
  code : Option Int
deriving DecidableEq, Repr

/-- Outcome of the `requests.post` call: a transport-level failure
(`requests.exceptions.RequestException`) or a response with an HTTP status
and a body (`none` = body that fails JSON decoding). -/
inductive HttpOutcome where
  | networkError
  | response (status : Nat) (body : Option FeishuResp)
deriving DecidableEq, Repr

/-- Observable effects of an alert-path function: log lines plus HTTP
requests issued. -/
structure AlertEffects where
  logs : List LogEvent
  requests : List HttpRequest
deriving DecidableEq, Repr

/-- `send_feishu_alert(webhook_url, message)` (main.py lines 252-280) with
the HTTP outcome passed explicitly.  `response.raise_for_status()` raises
`requests.exceptions.HTTPError` (a `RequestException`) exactly for statuses
in `[400, 600)`; that exception and a transport error land in the same
`except` clause.  A non-JSON body raises `JSONDecodeError`.  All paths log
and return; nothing propagates and no second request is issued. -/
def send_feishu_alert (webhook_url message : String) (out : HttpOutcome) :
    AlertEffects :=
  let req : HttpRequest :=
    ⟨webhook_url, "text", "🚨 OCI Billing Alert 🚨\n\n" ++ message, 10⟩
  match out with
  | .networkError =>
    ⟨[⟨.error, "发送飞书告警时发生网络或请求错误"⟩], [req]⟩
  | .response status body =>
    if 400 ≤ status ∧ status < 600 then
      ⟨[⟨.error, "发送飞书告警时发生网络或请求错误"⟩], [req]⟩
    else
      match body with
      | none => ⟨[⟨.error, "解析飞书响应时出错"⟩], [req]⟩
      | some r =>
        if r.statusCode = some 0 ∨ r.code = some 0 then
          ⟨[⟨.info, "飞书告警发送成功。"⟩], [req]⟩
        else ⟨[⟨.error, "发送飞书告警时返回错误"⟩], [req]⟩

/-- `trigger_alert(method, message, config)` (main.py lines 283-311).  The
warning line is written first, unconditionally; the method string is then
lowercased and matched.  Total: no path raises. -/
def trigger_alert (method message : String) (raw : RawConfig)
    (out : HttpOutcome) : AlertEffects :=
  let warn : LogEvent := ⟨.warning, "ALERT TRIGGERED: " ++ message⟩
  let method_lower := method.toLower
  if method_lower = "log" then ⟨[warn], []⟩
  else if method_lower = "feishu" then
    match raw.getOpt "Alerting" "feishu_webhook_url" with
    | some url =>
      let eff := send_feishu_alert url message out
      ⟨warn :: eff.logs, eff.requests⟩
    | none =>
      ⟨[warn, ⟨.error,
        "告警方法配置为 feishu，但未在配置文件中找到 feishu_webhook_url。"⟩], []⟩
  else ⟨[warn, ⟨.error, "不支持的告警方法配置: " ++ method⟩], []⟩

/-- The alert message formatted by `run_check` (main.py lines 344-347);
`amount` and `threshold` arrive already `.2f`-formatted. -/
def alert_message (target amount currency threshold start_time : String) :
    String :=
  "OCI 租户 " ++ target ++ " 累计用量 " ++ amount ++ " " ++ currency
    ++ " 已超过阈值 " ++ threshold ++ " " ++ currency
    ++ " (自 " ++ start_time ++ " 起)。"

/-- Observable behaviour of one `run_check`: its own log lines, and the list
of `trigger_alert(method, message, ...)` invocations it performs (the
dispatched alerts).  `trigger_alert`'s own effects are modelled separately
by `trigger_alert`. -/
structure CheckResult where
  logs : List LogEvent
  alerts : List (String × String)
deriving DecidableEq, Repr

/-- `run_check(config_path, is_cloud_shell)` (main.py lines 315-359),
translated clause by clause.  `FileNotFoundError` and `configparser.Error`
from loading land in the dedicated `except` clauses (lines 352-355); a
`ValueError` from `getfloat` would land in the generic one (line 356); a
failed fetch logs and returns with no dispatch; otherwise the cost is
logged and compared strictly against the threshold. -/
def run_check (file : Option RawConfig) (is_cloud_shell : Bool)
    (so : SignerOutcome) (ao : ApiOutcome) : CheckResult :=
  match file with
  | none => ⟨[⟨.error, "无法执行检查，配置文件未找到"⟩], []⟩
  | some raw =>
    match validate_config raw with
    | .error _ => ⟨[⟨.error, "无法执行检查，配置文件错误"⟩], []⟩
    | .ok _ =>
      match raw.getOpt "Billing" "start_time",
        raw.getOpt "Billing" "cost_threshold",
        raw.getOpt "Billing" "currency",
        raw.getOpt "Alerting" "method",
        raw.getOpt "OCI" "tenancy_ocid" with
      | some start_time_str, some threshold_str, some currency,
          some alert_method, some auth_tenancy =>
        match parseFloat threshold_str with
        | none => ⟨[⟨.error, "执行检查时发生意外错误"⟩], []⟩
        | some cost_threshold =>
          let target_tenancy :=
            (raw.getOpt "OCI" "target_tenancy_ocid").getD auth_tenancy
          let usage := get_oci_usage raw start_time_str is_cloud_shell so ao
          match usage.result with
          | none =>
            ⟨usage.logs ++ [⟨.error, "无法获取租户 " ++ target_tenancy
              ++ " 的累计用量，跳过本次检查。"⟩], []⟩
          | some cumulative_cost =>
            let costLine : LogEvent :=
              ⟨.info, "租户 " ++ target_tenancy ++ " 累计用量自 "
                ++ start_time_str ++ ": " ++ formatFixed2 cumulative_cost
                ++ " " ++ currency⟩
            if cost_threshold < cumulative_cost then
              let message := alert_message target_tenancy
                (formatFixed2 cumulative_cost) currency
                (formatFixed2 cost_threshold) start_time_str
              ⟨usage.logs ++ [costLine], [(alert_method, message)]⟩
            else
              ⟨usage.logs ++ [costLine, ⟨.info, "租户 " ++ target_tenancy
                ++ " 累计用量在阈值 (" ++ formatFixed2 cost_threshold
                ++ " " ++ currency ++ ") 内。"⟩], []⟩
      | _, _, _, _, _ =>
        -- A read of a validated-away option would raise a
        -- `configparser.Error`, caught at line 354.  Dead after a
        -- successful `validate_config`, kept for exception-routing
        -- fidelity.
        ⟨[⟨.error, "无法执行检查，配置文件错误"⟩], []⟩

/-- Primitive actions of `schedule_check` in execution order. -/
inductive SchedAction where
  | runCheckNow
  | registerJob (intervalHours : Nat)
  | runPending
  | sleep (seconds : Nat)
deriving DecidableEq, Repr

/-- Trace semantics of `schedule_check(config_path, interval_hours, ...)`
(main.py lines 364-381): action `n` of the infinite execution.  Line 375
runs one check immediately; line 377 registers the repeating job; the
`while True` loop then alternates `schedule.run_pending()` with
`time.sleep(60)` forever. -/
def schedule_check_trace (interval_hours : Nat) : Nat → SchedAction
  | 0 => .runCheckNow
  | 1 => .registerJob interval_hours
  | n + 2 => if n % 2 = 0 then .runPending else .sleep 60

/-- Result of `main()` after argument parsing: exit with a code, run a
single check (`--run-once`) and return, or enter the scheduler loop. -/
inductive MainOutcome where
  | exitCode (code : Nat)
  | ranOnce (r : CheckResult)
  | scheduled (interval : Int)
deriving DecidableEq, Repr

/-- `main()` (main.py lines 385-441) from the parsed arguments on:
non-positive interval → `sys.exit(1)`; failing startup `load_config` →
`sys.exit(1)`; otherwise one immediate check (`--run-once`) or the
scheduler.  (`argparse` itself, and the `KeyboardInterrupt`/scheduler-crash
handlers around the forever-running `schedule_check`, are outside the
function-level model; the name `main` itself is reserved by Lean for an IO
entry point, hence `main_fn`.) -/
def main_fn (interval : Int) (file : Option RawConfig) (run_once : Bool)
    (is_cloud_shell : Bool) (so : SignerOutcome) (ao : ApiOutcome) :
    MainOutcome :=
  if interval ≤ 0 then .exitCode 1
  else
    match load_config file with
    | .error _ => .exitCode 1
    | .ok _ =>
      if run_once then .ranOnce (run_check file is_cloud_shell so ao)
      else .scheduled interval

/-! ## Auxiliary definitions and lemmas shared by the claim theorems -/

/-- The sum as the specification words it (independently of the loop in the
code): restrict to the line items whose currency ISO code equals the target
currency, then sum their computed amounts. -/
def spec_matching_sum (items : List UsageItem) (target : String) : ℚ :=
  ((items.filter (fun i => i.currency_iso = some target)).filterMap
    (fun i => i.computed_amount)).sum

theorem usage_fold_fst (target : String) :
    ∀ (items : List UsageItem) (acc : ℚ × List LogEvent),
      (items.foldl (usage_fold_step target) acc).1
        = acc.1 + spec_matching_sum items target
  | [], acc => by simp [spec_matching_sum]
  | item :: rest, acc => by
    have ih := usage_fold_fst target rest
    cases ham : item.computed_amount with
    | none =>
      have hspec : spec_matching_sum (item :: rest) target
          = spec_matching_sum rest target := by
        by_cases h : item.currency_iso = some target <;>
          simp [spec_matching_sum, List.filter_cons, h, ham]
      simp [List.foldl_cons, usage_fold_step, ham, hspec, ih]
    | some amt =>
      by_cases h : item.currency_iso = some target
      · have hspec : spec_matching_sum (item :: rest) target
            = amt + spec_matching_sum rest target := by
          simp [spec_matching_sum, List.filter_cons, h, ham]
        simp [List.foldl_cons, usage_fold_step, ham, h, hspec, ih, add_assoc]
      · have hspec : spec_matching_sum (item :: rest) target
            = spec_matching_sum rest target := by
          simp [spec_matching_sum, List.filter_cons, h, ham]
        simp [List.foldl_cons, usage_fold_step, ham, h, hspec, ih]

theorem usage_fold_snd (target : String) :
    ∀ (items : List UsageItem) (acc : ℚ × List LogEvent),
      (items.foldl (usage_fold_step target) acc).2
        = acc.2 ++ (items.filter (fun i =>
            i.computed_amount.isSome ∧ ¬ i.currency_iso = some target)).map
              (mismatch_warning target)
  | [], acc => by simp
  | item :: rest, acc => by
    have ih := usage_fold_snd target rest
    cases ham : item.computed_amount with
    | none => simp [List.foldl_cons, usage_fold_step, ham, ih, List.filter_cons]
    | some amt =>
      by_cases h : item.currency_iso = some target
      · simp [List.foldl_cons, usage_fold_step, ham, h, ih, List.filter_cons]
      · simp [List.foldl_cons, usage_fold_step, ham, h, ih, List.filter_cons]

/-- A minimal valid configuration used by the concrete witnesses (it mirrors
the fixture of `tests/test_main.py`). -/
def witness_config : RawConfig := ⟨[
  ("OCI", [("tenancy_ocid", "ocid.test"), ("config_file", "~/.oci/config"),
           ("profile_name", "DEFAULT")]),
  ("Billing", [("start_time", "2024-07-01T00:00:00Z"),
               ("cost_threshold", "100.0"), ("currency", "USD")]),
  ("Alerting", [("method", "log")])]⟩

/-! ## Claim theorems -/

/-- **C1**: `run_check` dispatches an alert if and only if the fetched
cumulative cost is strictly greater than the configured cost threshold: for
every successful fetch with `cumulative_cost > cost_threshold` exactly one
alert is dispatched, whose message contains the target tenancy, the amount,
the currency, the threshold and the start time; for a cost exactly equal to
the threshold no alert is dispatched and the within-threshold line is
logged instead. -/
theorem run_check_alert_iff_cost_over_threshold
    (raw : RawConfig) (is_cloud_shell : Bool) (so : SignerOutcome)
    (ao : ApiOutcome) (st ctS cur meth auth : String) (thr c : ℚ)
    (hok : validate_config raw = .ok ())
    (hst : raw.getOpt "Billing" "start_time" = some st)
    (hct : raw.getOpt "Billing" "cost_threshold" = some ctS)
    (hcur : raw.getOpt "Billing" "currency" = some cur)
    (hmeth : raw.getOpt "Alerting" "method" = some meth)
    (hauth : raw.getOpt "OCI" "tenancy_ocid" = some auth)
    (hthr : parseFloat ctS = some thr)
    (hc : (get_oci_usage raw st is_cloud_shell so ao).result = some c) :
    (thr < c →
      (run_check (some raw) is_cloud_shell so ao).alerts
          = [(meth,
              alert_message ((raw.getOpt "OCI" "target_tenancy_ocid").getD auth)
                (formatFixed2 c) cur (formatFixed2 thr) st)]
        ∧ ContainsStr
            (alert_message ((raw.getOpt "OCI" "target_tenancy_ocid").getD auth)
              (formatFixed2 c) cur (formatFixed2 thr) st)
            ((raw.getOpt "OCI" "target_tenancy_ocid").getD auth)
        ∧ ContainsStr
            (alert_message ((raw.getOpt "OCI" "target_tenancy_ocid").getD auth)
              (formatFixed2 c) cur (formatFixed2 thr) st)
            (formatFixed2 c)
        ∧ ContainsStr
            (alert_message ((raw.getOpt "OCI" "target_tenancy_ocid").getD auth)
              (formatFixed2 c) cur (formatFixed2 thr) st)
            cur
        ∧ ContainsStr
            (alert_message ((raw.getOpt "OCI" "target_tenancy_ocid").getD auth)
              (formatFixed2 c) cur (formatFixed2 thr) st)
            (formatFixed2 thr)
        ∧ ContainsStr
            (alert_message ((raw.getOpt "OCI" "target_tenancy_ocid").getD auth)
              (formatFixed2 c) cur (formatFixed2 thr) st)
            st)
    ∧ (c = thr →
      (run_check (some raw) is_cloud_shell so ao).alerts = []
        ∧ (⟨.info, "租户 " ++ ((raw.getOpt "OCI" "target_tenancy_ocid").getD auth)
              ++ " 累计用量在阈值 (" ++ formatFixed2 thr ++ " " ++ cur
              ++ ") 内。"⟩ : LogEvent)
            ∈ (run_check (some raw) is_cloud_shell so ao).logs) := by
  constructor
  · intro hlt
    refine ⟨?_, ?_, ?_, ?_, ?_, ?_⟩
    · simp only [run_check, hok, hst, hct, hcur, hmeth, hauth, hthr, hc]
      simp [hlt]
    · exact ⟨"OCI 租户 ",
        " 累计用量 " ++ formatFixed2 c ++ " " ++ cur ++ " 已超过阈值 "
          ++ formatFixed2 thr ++ " " ++ cur ++ " (自 " ++ st ++ " 起)。",
        by simp [alert_message, String.append_assoc]⟩
    · exact ⟨"OCI 租户 " ++ ((raw.getOpt "OCI" "target_tenancy_ocid").getD auth)
          ++ " 累计用量 ",
        " " ++ cur ++ " 已超过阈值 " ++ formatFixed2 thr ++ " " ++ cur
          ++ " (自 " ++ st ++ " 起)。",
        by simp [alert_message, String.append_assoc]⟩
    · exact ⟨"OCI 租户 " ++ ((raw.getOpt "OCI" "target_tenancy_ocid").getD auth)
          ++ " 累计用量 " ++ formatFixed2 c ++ " ",
        " 已超过阈值 " ++ formatFixed2 thr ++ " " ++ cur
          ++ " (自 " ++ st ++ " 起)。",
        by simp [alert_message, String.append_assoc]⟩
    · exact ⟨"OCI 租户 " ++ ((raw.getOpt "OCI" "target_tenancy_ocid").getD auth)
          ++ " 累计用量 " ++ formatFixed2 c ++ " " ++ cur ++ " 已超过阈值 ",
        " " ++ cur ++ " (自 " ++ st ++ " 起)。",
        by simp [alert_message, String.append_assoc]⟩
    · exact ⟨"OCI 租户 " ++ ((raw.getOpt "OCI" "target_tenancy_ocid").getD auth)
          ++ " 累计用量 " ++ formatFixed2 c ++ " " ++ cur ++ " 已超过阈值 "
          ++ formatFixed2 thr ++ " " ++ cur ++ " (自 ",
        " 起)。",
        by simp [alert_message, String.append_assoc]⟩
  · intro heq
    subst heq
    constructor
    · simp only [run_check, hok, hst, hct, hcur, hmeth, hauth, hthr, hc]
      simp
    · simp only [run_check, hok, hst, hct, hcur, hmeth, hauth, hthr, hc]
      simp

/-- Witness for C1, at the spec's concrete scenario: cumulative cost 105.25
against threshold 100.0 dispatches exactly the one alert; cumulative cost
100.0 against threshold 100.0 dispatches none. -/
theorem run_check_alert_iff_cost_over_threshold_witness :
    ((100 : ℚ) < 105.25
      ∧ (run_check (some witness_config) false .ok
            (.success [⟨some (105.25 : ℚ), some "USD"⟩])).alerts
          = [("log",
              alert_message
                ((witness_config.getOpt "OCI" "target_tenancy_ocid").getD
                  "ocid.test")
                (formatFixed2 (105.25 : ℚ)) "USD" (formatFixed2 (100 : ℚ))
                "2024-07-01T00:00:00Z")])
    ∧ (run_check (some witness_config) false .ok
          (.success [⟨some (100 : ℚ), some "USD"⟩])).alerts = [] := by
  constructor
  · have h := run_check_alert_iff_cost_over_threshold witness_config false .ok
      (.success [⟨some (105.25 : ℚ), some "USD"⟩]) "2024-07-01T00:00:00Z"
      "100.0" "USD" "log" "ocid.test" 100 105.25
      (by with_unfolding_all rfl) (by with_unfolding_all rfl)
      (by with_unfolding_all rfl) (by with_unfolding_all rfl)
      (by with_unfolding_all rfl) (by with_unfolding_all rfl)
      (by with_unfolding_all rfl) (by with_unfolding_all rfl)
    exact ⟨by norm_num, (h.1 (by norm_num)).1⟩
  · have h := run_check_alert_iff_cost_over_threshold witness_config false .ok
      (.success [⟨some (100 : ℚ), some "USD"⟩]) "2024-07-01T00:00:00Z"
      "100.0" "USD" "log" "ocid.test" 100 100
      (by with_unfolding_all rfl) (by with_unfolding_all rfl)
      (by with_unfolding_all rfl) (by with_unfolding_all rfl)
      (by with_unfolding_all rfl) (by with_unfolding_all rfl)
      (by with_unfolding_all rfl) (by with_unfolding_all rfl)
    exact (h.2 rfl).1

/-- **C2**: on a successful API response, `get_oci_usage` returns the sum of
the `computed_amount`s of exactly the items whose currency ISO code equals
the configured currency; items in another currency are logged (one warning
each) and excluded; an empty response, or a response with no matching
items, yields `some 0` rather than a failure. -/
theorem get_oci_usage_sums_matching_currency
    (raw : RawConfig) (st : String) (is_cloud_shell : Bool)
    (items : List UsageItem) (cur auth : String)
    (hauth : raw.getOpt "OCI" "tenancy_ocid" = some auth)
    (hfile : raw.has_option "OCI" "config_file" = true)
    (hprof : raw.has_option "OCI" "profile_name" = true)
    (hcur : raw.getOpt "Billing" "currency" = some cur)
    (hdt : parse_datetime_z st = true) :
    (get_oci_usage raw st is_cloud_shell .ok (.success items)).result
        = some (spec_matching_sum items cur)
    ∧ (items ≠ [] →
        (get_oci_usage raw st is_cloud_shell .ok (.success items)).logs
          = (items.filter (fun i =>
              i.computed_amount.isSome ∧ ¬ i.currency_iso = some cur)).map
                (mismatch_warning cur)
            ++ [⟨.info, "获取到租户 "
                  ++ ((raw.getOpt "OCI" "target_tenancy_ocid").getD auth)
                  ++ " 的 " ++ toString items.length ++ " 条用量记录。"⟩])
    ∧ ((∀ i ∈ items, ¬ i.currency_iso = some cur) →
        (get_oci_usage raw st is_cloud_shell .ok (.success items)).result
          = some 0) := by
  have hred :
      get_oci_usage raw st is_cloud_shell .ok (.success items)
        = if items.isEmpty then
            ⟨some 0, [⟨.info, "在指定时间范围内未找到租户 "
              ++ ((raw.getOpt "OCI" "target_tenancy_ocid").getD auth)
              ++ " 的用量数据。"⟩]⟩
          else
            ⟨some (usage_items_fold items cur).1,
              (usage_items_fold items cur).2 ++ [⟨.info, "获取到租户 "
                ++ ((raw.getOpt "OCI" "target_tenancy_ocid").getD auth)
                ++ " 的 " ++ toString items.length ++ " 条用量记录。"⟩]⟩ := by
    simp only [get_oci_usage, hauth, hfile, hprof, hcur, hdt]
    simp
  refine ⟨?_, ?_, ?_⟩
  · rw [hred]
    cases items with
    | nil => simp [spec_matching_sum]
    | cons a l =>
      rw [if_neg (by simp)]
      simp only [usage_items_fold, usage_fold_fst]
      simp
  · intro hne
    rw [hred, if_neg (by simpa using hne)]
    simp [usage_items_fold, usage_fold_snd]
  · intro hnone
    rw [hred]
    have hzero : spec_matching_sum items cur = 0 := by
      have : items.filter (fun i => i.currency_iso = some cur) = [] := by
        simp only [List.filter_eq_nil_iff]
        intro a ha
        simpa using hnone a ha
      simp [spec_matching_sum, this]
    cases items with
    | nil => simp
    | cons a l =>
      rw [if_neg (by simp)]
      simp only [usage_items_fold, usage_fold_fst]
      simp [hzero]

/-- Witness for C2, at the spec's concrete input: items
`[(50.5, USD), (30, EUR)]` with target currency `USD` sum to `50.5`. -/
theorem get_oci_usage_sums_matching_currency_witness :
    (get_oci_usage witness_config "2024-07-01T00:00:00Z" false .ok
        (.success [⟨some (50.5 : ℚ), some "USD"⟩,
                   ⟨some (30 : ℚ), some "EUR"⟩])).result
      = some (spec_matching_sum
          [⟨some (50.5 : ℚ), some "USD"⟩, ⟨some (30 : ℚ), some "EUR"⟩] "USD")
    ∧ spec_matching_sum
        [⟨some (50.5 : ℚ), some "USD"⟩, ⟨some (30 : ℚ), some "EUR"⟩] "USD"
      = 50.5 := by
  have h := get_oci_usage_sums_matching_currency witness_config
    "2024-07-01T00:00:00Z" false
    [⟨some (50.5 : ℚ), some "USD"⟩, ⟨some (30 : ℚ), some "EUR"⟩] "USD"
    "ocid.test"
    (by with_unfolding_all rfl) (by with_unfolding_all rfl)
    (by with_unfolding_all rfl) (by with_unfolding_all rfl)
    (by with_unfolding_all rfl)
  exact ⟨h.1, by with_unfolding_all rfl⟩

/-- **C3**: whenever the usage fetch fails (`get_oci_usage` returns `None`),
`run_check` logs an error and returns without dispatching any alert. -/
theorem run_check_fetch_failure_no_alert
    (raw : RawConfig) (is_cloud_shell : Bool) (so : SignerOutcome)
    (ao : ApiOutcome) (st ctS cur meth auth : String) (thr : ℚ)
    (hok : validate_config raw = .ok ())
    (hst : raw.getOpt "Billing" "start_time" = some st)
    (hct : raw.getOpt "Billing" "cost_threshold" = some ctS)
    (hcur : raw.getOpt "Billing" "currency" = some cur)
    (hmeth : raw.getOpt "Alerting" "method" = some meth)
    (hauth : raw.getOpt "OCI" "tenancy_ocid" = some auth)
    (hthr : parseFloat ctS = some thr)
    (hfail : (get_oci_usage raw st is_cloud_shell so ao).result = none) :
    (run_check (some raw) is_cloud_shell so ao).alerts = []
    ∧ (⟨.error, "无法获取租户 "
          ++ ((raw.getOpt "OCI" "target_tenancy_ocid").getD auth)
          ++ " 的累计用量，跳过本次检查。"⟩ : LogEvent)
        ∈ (run_check (some raw) is_cloud_shell so ao).logs := by
  constructor
  · simp only [run_check, hok, hst, hct, hcur, hmeth, hauth, hthr, hfail]
  · simp only [run_check, hok, hst, hct, hcur, hmeth, hauth, hthr, hfail]
    simp

/-- Witness for C3: a transport-level failure of the usage API produces no
alert dispatch. -/
theorem run_check_fetch_failure_no_alert_witness :
    (get_oci_usage witness_config "2024-07-01T00:00:00Z" false .ok
        .otherError).result = none
    ∧ (run_check (some witness_config) false .ok .otherError).alerts = [] := by
  have h := run_check_fetch_failure_no_alert witness_config false .ok
    .otherError "2024-07-01T00:00:00Z" "100.0" "USD" "log" "ocid.test" 100
    (by with_unfolding_all rfl) (by with_unfolding_all rfl)
    (by with_unfolding_all rfl) (by with_unfolding_all rfl)
    (by with_unfolding_all rfl) (by with_unfolding_all rfl)
    (by with_unfolding_all rfl) (by with_unfolding_all rfl)
  exact ⟨by with_unfolding_all rfl, h.1⟩

/-- A configuration identical to `witness_config` except that
`cost_threshold` is the negative value `-5.0`. -/
def negative_threshold_config : RawConfig := ⟨[
  ("OCI", [("tenancy_ocid", "ocid.test"), ("config_file", "~/.oci/config"),
           ("profile_name", "DEFAULT")]),
  ("Billing", [("start_time", "2024-07-01T00:00:00Z"),
               ("cost_threshold", "-5.0"), ("currency", "USD")]),
  ("Alerting", [("method", "log")])]⟩

/-- **C4 counterexample**: `load_config` does *not* reject a configuration
whose `cost_threshold` parses as the negative number `-5.0` — the code only
calls `config.getfloat` (a parseability check) and never compares the value
against zero, so the load succeeds. -/
theorem load_config_accepts_negative_threshold :
    negative_threshold_config.getOpt "Billing" "cost_threshold" = some "-5.0"
    ∧ parseFloat "-5.0" = some (-5)
    ∧ load_config (some negative_threshold_config) = Except.ok () :=
  ⟨by with_unfolding_all rfl, by with_unfolding_all rfl,
   by with_unfolding_all rfl⟩

/-- **C4 (amended)**: `load_config` fails with a `Malformed`
(`configparser.Error`-wrapped `ValueError`) error for every configuration
file, with the required sections and keys present, whose `cost_threshold`
value is not parseable as a number at all; no sign check is performed, so a
value parsing as a negative number is accepted. -/
theorem load_config_rejects_unparseable_threshold
    (raw : RawConfig) (v : String)
    (hOCI : raw.has_section "OCI" = true)
    (hBil : raw.has_section "Billing" = true)
    (hAle : raw.has_section "Alerting" = true)
    (hten : raw.has_option "OCI" "tenancy_ocid" = true)
    (hst : raw.has_option "Billing" "start_time" = true)
    (hcur : raw.has_option "Billing" "currency" = true)
    (hctv : raw.getOpt "Billing" "cost_threshold" = some v)
    (hv : parseFloat v = none) :
    load_config (some raw) = .error .valueError := by
  have hct : raw.has_option "Billing" "cost_threshold" = true := by
    simp [RawConfig.has_option, hctv]
  simp only [load_config, validate_config, hOCI, hBil, hAle, hten, hst, hcur,
    hct, hctv, hv]
  simp [hv]

/-- A configuration identical to `witness_config` except that
`cost_threshold` is the unparseable string `abc`. -/
def unparseable_threshold_config : RawConfig := ⟨[
  ("OCI", [("tenancy_ocid", "ocid.test"), ("config_file", "~/.oci/config"),
           ("profile_name", "DEFAULT")]),
  ("Billing", [("start_time", "2024-07-01T00:00:00Z"),
               ("cost_threshold", "abc"), ("currency", "USD")]),
  ("Alerting", [("method", "log")])]⟩

/-- Witness for the amended C4: a `cost_threshold` of `abc` is rejected. -/
theorem load_config_rejects_unparseable_threshold_witness :
    parseFloat "abc" = none
    ∧ load_config (some unparseable_threshold_config)
        = .error .valueError := by
  refine ⟨by with_unfolding_all rfl, ?_⟩
  exact load_config_rejects_unparseable_threshold unparseable_threshold_config
    "abc"
    (by with_unfolding_all rfl) (by with_unfolding_all rfl)
    (by with_unfolding_all rfl) (by with_unfolding_all rfl)
    (by with_unfolding_all rfl) (by with_unfolding_all rfl)
    (by with_unfolding_all rfl) (by with_unfolding_all rfl)

/-- **C5**: `get_oci_usage` maps every failure — missing OCI credentials
file, missing profile, missing config option, service errors (with an extra
permissions-hint log on 401/404), and any other exception — to the single
value `none`.  The return type `Option ℚ` itself is what the caller sees:
only success (a rational) versus failure (`none`), never an error
subtype. -/
theorem get_oci_usage_failure_is_none
    (raw : RawConfig) (st : String) (is_cloud_shell : Bool)
    (ao : ApiOutcome) :
    ((get_oci_usage raw st is_cloud_shell .configFileNotFound ao).result
        = none)
    ∧ ((get_oci_usage raw st is_cloud_shell .profileNotFound ao).result
        = none)
    ∧ ((get_oci_usage raw st is_cloud_shell .otherError ao).result = none)
    ∧ (raw.getOpt "OCI" "tenancy_ocid" = none →
        ∀ so : SignerOutcome,
          (get_oci_usage raw st is_cloud_shell so ao).result = none)
    ∧ (is_cloud_shell = false → raw.has_option "OCI" "config_file" = false →
        ∀ so : SignerOutcome,
          (get_oci_usage raw st is_cloud_shell so ao).result = none)
    ∧ (is_cloud_shell = false → raw.has_option "OCI" "profile_name" = false →
        ∀ so : SignerOutcome,
          (get_oci_usage raw st is_cloud_shell so ao).result = none)
    ∧ (∀ status : Nat,
        (get_oci_usage raw st is_cloud_shell .ok
          (.serviceError status)).result = none)
    ∧ ((get_oci_usage raw st is_cloud_shell .ok .otherError).result = none)
    ∧ (∀ auth cur : String,
        raw.getOpt "OCI" "tenancy_ocid" = some auth →
        raw.has_option "OCI" "config_file" = true →
        raw.has_option "OCI" "profile_name" = true →
        raw.getOpt "Billing" "currency" = some cur →
        parse_datetime_z st = true →
        ∀ status : Nat, status = 401 ∨ status = 404 →
          (⟨.error, "请确认认证主体 ("
              ++ (if is_cloud_shell then "实例主体"
                  else "配置文件用户 (profile: "
                    ++ ((raw.getOpt "OCI" "profile_name").getD "N/A") ++ ")")
              ++ "，父租户: " ++ auth ++ ") 具有读取子租户 ("
              ++ ((raw.getOpt "OCI" "target_tenancy_ocid").getD auth)
              ++ ") 用量数据的权限。"⟩ : LogEvent)
            ∈ (get_oci_usage raw st is_cloud_shell .ok
                (.serviceError status)).logs) := by
  refine ⟨?_, ?_, ?_, ?_, ?_, ?_, ?_, ?_, ?_⟩
  · unfold get_oci_usage
    repeat' split
    all_goals simp_all
  · unfold get_oci_usage
    repeat' split
    all_goals simp_all
  · unfold get_oci_usage
    repeat' split
    all_goals simp_all
  · intro hten so
    unfold get_oci_usage
    repeat' split
    all_goals simp_all
  · intro hcs hfile so
    unfold get_oci_usage
    repeat' split
    all_goals simp_all
  · intro hcs hprof so
    unfold get_oci_usage
    repeat' split
    all_goals simp_all
  · intro status
    unfold get_oci_usage
    repeat' split
    all_goals simp_all
  · unfold get_oci_usage
    repeat' split
    all_goals simp_all
  · intro auth cur hauth hfile hprof hcur hdt status hstat
    rcases hstat with rfl | rfl <;>
      simp [get_oci_usage, hauth, hfile, hprof, hcur, hdt]

/-- Witness for C5: on `witness_config` a 404 service error yields `none`
and logs the permissions hint. -/
theorem get_oci_usage_failure_is_none_witness :
    (get_oci_usage witness_config "2024-07-01T00:00:00Z" false .ok
        (.serviceError 404)).result = none
    ∧ (⟨.error, "请确认认证主体 ("
          ++ (if false then "实例主体"
              else "配置文件用户 (profile: "
                ++ ((witness_config.getOpt "OCI" "profile_name").getD "N/A")
                ++ ")")
          ++ "，父租户: " ++ "ocid.test" ++ ") 具有读取子租户 ("
          ++ ((witness_config.getOpt "OCI" "target_tenancy_ocid").getD
                "ocid.test")
          ++ ") 用量数据的权限。"⟩ : LogEvent)
        ∈ (get_oci_usage witness_config "2024-07-01T00:00:00Z" false .ok
            (.serviceError 404)).logs := by
  have h := get_oci_usage_failure_is_none witness_config
    "2024-07-01T00:00:00Z" false (.serviceError 404)
  exact ⟨h.2.2.2.2.2.2.1 404,
    h.2.2.2.2.2.2.2.2 "ocid.test" "USD"
      (by with_unfolding_all rfl) (by with_unfolding_all rfl)
      (by with_unfolding_all rfl) (by with_unfolding_all rfl)
      (by with_unfolding_all rfl) 404 (Or.inr rfl)⟩

theorem send_feishu_alert_no_warning (url message : String)
    (out : HttpOutcome) :
    (send_feishu_alert url message out).logs.countP
      (fun e => decide (e.level = .warning)) = 0 := by
  cases out with
  | networkError => simp [send_feishu_alert]
  | response status body =>
    by_cases h : 400 ≤ status ∧ status < 600
    · simp [send_feishu_alert, h]
    · cases body with
      | none => simp [send_feishu_alert, h]
      | some r =>
        by_cases h2 : r.statusCode = some 0 ∨ r.code = some 0 <;>
          simp [send_feishu_alert, h, h2]

/-- **C6**: for every method string and message, `trigger_alert` returns
normally (it is a total function of its inputs: no path raises), writes the
warning-level line containing the message as its very first log line —
and as its only warning-level line — before any method-specific handling,
and an unrecognized method results in an error log naming the unsupported
method followed by normal return. -/
theorem trigger_alert_always_warns
    (method message : String) (raw : RawConfig) (out : HttpOutcome) :
    (trigger_alert method message raw out).logs.head?
        = some ⟨.warning, "ALERT TRIGGERED: " ++ message⟩
    ∧ ContainsStr ("ALERT TRIGGERED: " ++ message) message
    ∧ (trigger_alert method message raw out).logs.countP
        (fun e => decide (e.level = .warning)) = 1
    ∧ (¬ method.toLower = "log" → ¬ method.toLower = "feishu" →
        (⟨.error, "不支持的告警方法配置: " ++ method⟩ : LogEvent)
            ∈ (trigger_alert method message raw out).logs
          ∧ ContainsStr ("不支持的告警方法配置: " ++ method) method) := by
  refine ⟨?_, ⟨"ALERT TRIGGERED: ", "", by simp⟩, ?_, ?_⟩
  · by_cases hlog : method.toLower = "log"
    · simp [trigger_alert, hlog]
    · by_cases hfei : method.toLower = "feishu"
      · cases hurl : raw.getOpt "Alerting" "feishu_webhook_url" <;>
          simp [trigger_alert, hlog, hfei, hurl]
      · simp [trigger_alert, hlog, hfei]
  · by_cases hlog : method.toLower = "log"
    · simp [trigger_alert, hlog]
    · by_cases hfei : method.toLower = "feishu"
      · cases hurl : raw.getOpt "Alerting" "feishu_webhook_url" with
        | none => simp [trigger_alert, hlog, hfei, hurl]
        | some url =>
          simp [trigger_alert, hlog, hfei, hurl, List.countP_cons,
            send_feishu_alert_no_warning]
      · simp [trigger_alert, hlog, hfei]
  · intro hlog hfei
    refine ⟨?_, ⟨"不支持的告警方法配置: ", "", by simp⟩⟩
    simp [trigger_alert, hlog, hfei]

/-- Witness for C6: the unsupported method `sms` (the value exercised by the
repository's own test) logs the alert warning first and then the
unsupported-method error. -/
theorem trigger_alert_always_warns_witness :
    ¬ ("sms".toLower = "log")
    ∧ (⟨.error, "不支持的告警方法配置: " ++ "sms"⟩ : LogEvent)
        ∈ (trigger_alert "sms" "Test alert message" witness_config
            .networkError).logs := by
  have h := trigger_alert_always_warns "sms" "Test alert message"
    witness_config .networkError
  refine ⟨?_, ?_⟩
  · exact of_decide_eq_true (by with_unfolding_all rfl)
  · exact (h.2.2.2 (of_decide_eq_true (by with_unfolding_all rfl))
      (of_decide_eq_true (by with_unfolding_all rfl))).1

/-- **C7 counterexample**: the claim "any non-2xx HTTP status is treated as
a delivery failure (an error is logged)" is false: `raise_for_status` only
raises for statuses in `[400, 600)`, so a `301` response whose JSON body
carries `code = 0` is logged as a *success* and no error line is
emitted. -/
theorem send_feishu_alert_non2xx_counterexample :
    ¬ (200 ≤ 301 ∧ 301 < 300)
    ∧ (send_feishu_alert "https://open.feishu.cn/open-apis/bot/v2/hook/x"
          "msg" (.response 301 (some ⟨none, some 0⟩))).logs
        = [⟨.info, "飞书告警发送成功。"⟩] :=
  ⟨by norm_num, by with_unfolding_all rfl⟩

/-- **C7 (amended)**: `send_feishu_alert` POSTs the JSON payload
`{"msg_type":"text","content":{"text":"<decorated message>"}}` to the
configured webhook URL with a 10-second timeout — exactly once, so it never
retries — and treats any HTTP status in `[400, 600)` (the statuses for
which `raise_for_status` raises), any network error, or a non-JSON response
body as a delivery failure: it logs an error and, being a total function,
never lets an exception propagate to its caller.  Statuses below 400 are
not themselves failures (see the counterexample); for them the Feishu
status fields of the JSON body decide between a success log and an error
log. -/
theorem send_feishu_alert_delivery (url message : String)
    (out : HttpOutcome) :
    (send_feishu_alert url message out).requests
        = [⟨url, "text", "🚨 OCI Billing Alert 🚨\n\n" ++ message, 10⟩]
    ∧ (∃ e ∈ (send_feishu_alert url message .networkError).logs,
        e.level = .error)
    ∧ (∀ (status : Nat) (body : Option FeishuResp),
        400 ≤ status → status < 600 →
          ∃ e ∈ (send_feishu_alert url message (.response status body)).logs,
            e.level = .error)
    ∧ (∀ status : Nat,
        ∃ e ∈ (send_feishu_alert url message (.response status none)).logs,
          e.level = .error) := by
  refine ⟨?_, ?_, ?_, ?_⟩
  · cases out with
    | networkError => simp [send_feishu_alert]
    | response status body =>
      by_cases h : 400 ≤ status ∧ status < 600
      · simp [send_feishu_alert, h]
      · cases body with
        | none => simp [send_feishu_alert, h]
        | some r =>
          by_cases h2 : r.statusCode = some 0 ∨ r.code = some 0 <;>
            simp [send_feishu_alert, h, h2]
  · exact ⟨⟨.error, "发送飞书告警时发生网络或请求错误"⟩,
      by simp [send_feishu_alert]⟩
  · intro status body h1 h2
    exact ⟨⟨.error, "发送飞书告警时发生网络或请求错误"⟩,
      by simp [send_feishu_alert, And.intro h1 h2]⟩
  · intro status
    by_cases h : 400 ≤ status ∧ status < 600
    · exact ⟨⟨.error, "发送飞书告警时发生网络或请求错误"⟩,
        by simp [send_feishu_alert, h]⟩
    · exact ⟨⟨.error, "解析飞书响应时出错"⟩,
        by simp [send_feishu_alert, h]⟩

/-- Witness for the amended C7: a 500 response (here with an unparseable
body) produces an error log, and the single request carries the payload and
the 10-second timeout. -/
theorem send_feishu_alert_delivery_witness :
    (400 ≤ 500 ∧ 500 < 600)
    ∧ (send_feishu_alert "https://open.feishu.cn/open-apis/bot/v2/hook/x"
          "msg" (.response 500 none)).requests
        = [⟨"https://open.feishu.cn/open-apis/bot/v2/hook/x", "text",
            "🚨 OCI Billing Alert 🚨\n\n" ++ "msg", 10⟩]
    ∧ (∃ e ∈ (send_feishu_alert "https://open.feishu.cn/open-apis/bot/v2/hook/x"
          "msg" (.response 500 none)).logs, e.level = .error) := by
  have h := send_feishu_alert_delivery
    "https://open.feishu.cn/open-apis/bot/v2/hook/x" "msg"
    (.response 500 none)
  exact ⟨⟨by norm_num, by norm_num⟩, h.1,
    h.2.2.1 500 none (by norm_num) (by norm_num)⟩

/-- **C8**: the process validates its inputs before any cycle is scheduled:
a non-positive interval, or a configuration that fails to load or validate
at startup, makes `main` exit with code 1 without running or scheduling any
check; conversely, whenever a check is run (`--run-once`) or the scheduler
is entered, the startup `load_config` succeeded and the interval was
positive. -/
theorem main_validates_before_scheduling
    (interval : Int) (file : Option RawConfig) (run_once is_cloud_shell : Bool)
    (so : SignerOutcome) (ao : ApiOutcome) :
    (interval ≤ 0 →
      main_fn interval file run_once is_cloud_shell so ao = .exitCode 1)
    ∧ (∀ e : LoadError, load_config file = .error e →
        main_fn interval file run_once is_cloud_shell so ao = .exitCode 1)
    ∧ (∀ r : CheckResult,
        main_fn interval file run_once is_cloud_shell so ao = .ranOnce r →
          load_config file = .ok () ∧ 0 < interval)
    ∧ (∀ i : Int,
        main_fn interval file run_once is_cloud_shell so ao = .scheduled i →
          load_config file = .ok () ∧ 0 < interval) := by
  refine ⟨?_, ?_, ?_, ?_⟩
  · intro h
    simp [main_fn, h]
  · intro e he
    by_cases hi : interval ≤ 0
    · simp [main_fn, hi]
    · simp [main_fn, hi, he]
  · intro r hr
    by_cases hi : interval ≤ 0
    · simp [main_fn, hi] at hr
    · cases hl : load_config file with
      | error e => simp [main_fn, hi, hl] at hr
      | ok u => exact ⟨by cases u; rfl, by omega⟩
  · intro i hi2
    by_cases hi : interval ≤ 0
    · simp [main_fn, hi] at hi2
    · cases hl : load_config file with
      | error e => simp [main_fn, hi, hl] at hi2
      | ok u => exact ⟨by cases u; rfl, by omega⟩

/-- Witness for C8: a zero interval exits with code 1, and so does a
missing configuration file even with a positive interval. -/
theorem main_validates_before_scheduling_witness :
    ((0 : Int) ≤ 0
      ∧ main_fn 0 (some witness_config) false false .ok .otherError
          = .exitCode 1)
    ∧ (load_config none = .error .fileNotFound
      ∧ main_fn 2 none false false .ok .otherError = .exitCode 1) := by
  refine ⟨⟨le_refl 0, ?_⟩, ⟨by with_unfolding_all rfl, ?_⟩⟩
  · exact (main_validates_before_scheduling 0 (some witness_config) false
      false .ok .otherError).1 (le_refl 0)
  · exact (main_validates_before_scheduling 2 none false false .ok
      .otherError).2.1 .fileNotFound (by with_unfolding_all rfl)

/-- **C9**: `schedule_check` executes one `run_check` immediately on start
(action 0), registers the repeating interval job only after that (action
1), and then polls cooperatively forever, alternating a `run_pending` check
with a fixed 60-second sleep — every sleep in the trace is exactly 60
seconds and never the full interval (`3600 * interval_hours` seconds). -/
theorem schedule_check_trace_shape (interval_hours : Nat)
    (hpos : 1 ≤ interval_hours) :
    schedule_check_trace interval_hours 0 = .runCheckNow
    ∧ schedule_check_trace interval_hours 1 = .registerJob interval_hours
    ∧ (∀ k : Nat,
        schedule_check_trace interval_hours (2 * k + 2) = .runPending
        ∧ schedule_check_trace interval_hours (2 * k + 3) = .sleep 60)
    ∧ (∀ n s : Nat, schedule_check_trace interval_hours n = .sleep s →
        s = 60 ∧ s < 3600 * interval_hours) := by
  refine ⟨rfl, rfl, ?_, ?_⟩
  · intro k
    constructor
    · show schedule_check_trace interval_hours (2 * k + 2) = .runPending
      have h2 : (2 * k) % 2 = 0 := by omega
      simp [schedule_check_trace, h2]
    · show schedule_check_trace interval_hours (2 * k + 1 + 2) = .sleep 60
      have h2 : (2 * k + 1) % 2 = 1 := by omega
      simp [schedule_check_trace, h2]
  · intro n s hn
    match n, hn with
    | 0, hn => exact absurd hn (by simp [schedule_check_trace])
    | 1, hn => exact absurd hn (by simp [schedule_check_trace])
    | (m + 2), hn =>
      by_cases hm : m % 2 = 0
      · rw [schedule_check_trace, if_pos hm] at hn
        exact absurd hn (by simp)
      · rw [schedule_check_trace, if_neg hm] at hn
        have hs : s = 60 := by
          have := SchedAction.sleep.inj hn.symm
          omega
        exact ⟨hs, by omega⟩

/-- Witness for C9 at the default interval of 2 hours. -/
theorem schedule_check_trace_shape_witness :
    (1 ≤ 2)
    ∧ schedule_check_trace 2 0 = .runCheckNow
    ∧ schedule_check_trace 2 1 = .registerJob 2
    ∧ schedule_check_trace 2 2 = .runPending
    ∧ schedule_check_trace 2 3 = .sleep 60 := by
  have h := schedule_check_trace_shape 2 (by norm_num)
  exact ⟨by norm_num, h.1, h.2.1, by simpa using (h.2.2.1 0).1,
    by simpa using (h.2.2.1 0).2⟩

/-- A valid configuration whose alert method is `feishu`, with the webhook
URL present, for exercising the webhook path. -/
def feishu_config : RawConfig := ⟨[
  ("OCI", [("tenancy_ocid", "ocid.test"), ("config_file", "~/.oci/config"),
           ("profile_name", "DEFAULT")]),
  ("Billing", [("start_time", "2024-07-01T00:00:00Z"),
               ("cost_threshold", "100.0"), ("currency", "USD")]),
  ("Alerting", [("method", "feishu"),
    ("feishu_webhook_url",
      "https://open.feishu.cn/open-apis/bot/v2/hook/x")])]⟩

/-- **C10** (implicit): `trigger_alert` lowercases the method string before
comparing, so `LOG`/`Log`/`log` all take the log-only path (no HTTP
request) and `FEISHU`/`Feishu`/`feishu` all take the webhook path (when the
webhook URL is configured). -/
theorem trigger_alert_method_case_insensitive
    (m : String) (raw : RawConfig) (out : HttpOutcome) :
    trigger_alert "LOG" m raw out = trigger_alert "log" m raw out
    ∧ trigger_alert "Log" m raw out = trigger_alert "log" m raw out
    ∧ trigger_alert "FEISHU" m raw out = trigger_alert "feishu" m raw out
    ∧ trigger_alert "Feishu" m raw out = trigger_alert "feishu" m raw out
    ∧ (trigger_alert "log" m raw out).requests = []
    ∧ (trigger_alert "LOG" m raw out).logs
        = [⟨.warning, "ALERT TRIGGERED: " ++ m⟩]
    ∧ (∀ url, raw.getOpt "Alerting" "feishu_webhook_url" = some url →
        trigger_alert "FEISHU" m raw out
          = ⟨⟨.warning, "ALERT TRIGGERED: " ++ m⟩
                :: (send_feishu_alert url m out).logs,
              (send_feishu_alert url m out).requests⟩) := by
  have hlow : "log".toLower = "log" := by with_unfolding_all rfl
  refine ⟨?_, ?_, ?_, ?_, ?_, ?_, ?_⟩
  · have h1 : "LOG".toLower = "log" := by with_unfolding_all rfl
    simp only [trigger_alert, h1, hlow, if_true]
  · have h1 : "Log".toLower = "log" := by with_unfolding_all rfl
    simp only [trigger_alert, h1, hlow, if_true]
  · have h1 : "FEISHU".toLower = "feishu" := by with_unfolding_all rfl
    have h2 : "feishu".toLower = "feishu" := by with_unfolding_all rfl
    simp [trigger_alert, h1, h2]
  · have h1 : "Feishu".toLower = "feishu" := by with_unfolding_all rfl
    have h2 : "feishu".toLower = "feishu" := by with_unfolding_all rfl
    simp [trigger_alert, h1, h2]
  · simp [trigger_alert, hlow]
  · have h1 : "LOG".toLower = "log" := by with_unfolding_all rfl
    simp [trigger_alert, h1]
  · intro url hurl
    have h1 : "FEISHU".toLower = "feishu" := by with_unfolding_all rfl
    simp [trigger_alert, h1, hurl]

/-- Witness for C10: on `feishu_config` the upper-case method `FEISHU`
reaches the webhook send (the configured URL is used). -/
theorem trigger_alert_method_case_insensitive_witness :
    feishu_config.getOpt "Alerting" "feishu_webhook_url"
        = some "https://open.feishu.cn/open-apis/bot/v2/hook/x"
    ∧ trigger_alert "FEISHU" "m" feishu_config .networkError
        = ⟨⟨.warning, "ALERT TRIGGERED: " ++ "m"⟩
              :: (send_feishu_alert
                  "https://open.feishu.cn/open-apis/bot/v2/hook/x" "m"
                  .networkError).logs,
            (send_feishu_alert
                "https://open.feishu.cn/open-apis/bot/v2/hook/x" "m"
                .networkError).requests⟩ := by
  refine ⟨by with_unfolding_all rfl, ?_⟩
  exact (trigger_alert_method_case_insensitive "m" feishu_config
      .networkError).2.2.2.2.2.2
    "https://open.feishu.cn/open-apis/bot/v2/hook/x"
    (by with_unfolding_all rfl)
